import Mathlib

/-!
Shallow embedding of the database access layer of the repository
(src/aj-utilities/src/utilities/db.py): the connection config, the two
pool backends (AsyncpgDatabase and SqlAlchemyDatabase), and the Db
selector/proxy, together with theorems settling the specification claims.

Modelling conventions:
  - Python exceptions become values of `PyError`; a fallible operation
    returns `Except PyError α`.
  - Awaiting is pure in the model: an async method that mutates `self`
    becomes a function from the instance state to the new instance state.
  - The external drivers (asyncpg, SQLAlchemy) are modelled at the
    granularity the source uses them: the answer a SELECT produces is a
    `List Row` parameter, the outcome of the network handshake is a
    `Bool` parameter, and the durable database content is a `DbData`
    value threaded through the effectful operations.
-/

namespace AjDb

/-- Exceptions that the access layer can surface: RuntimeError and
ImportError raised by db.py itself, plus errors propagated from the
underlying driver (handshake failures and per-statement failures). -/
inductive PyError where
  | runtimeError (msg : String)
  | importErr (msg : String)
  | connectionError (msg : String)
  | driverError (msg : String)
deriving DecidableEq, Repr

/-- DbConnectionConfig (db.py lines 20-27): a pydantic BaseModel with the
seven connection fields and defaults for port and pool bounds. The model
declares no custom validators. -/
structure DbConnectionConfig where
  db_host : String
  db_name : String
  db_username : String
  db_password : String
  db_port : Int := 5432
  min_connections : Int := 1
  max_connections : Int := 10
deriving DecidableEq, Repr

/-- Construction of a DbConnectionConfig. Pydantic validates field types
only; db.py adds no validator for the pool bounds or the port, so for
well-typed field values construction always succeeds and stores the
fields unchanged. -/
def DbConnectionConfig.construct (host name user pass : String)
    (port mn mx : Int) : Except PyError DbConnectionConfig :=
  .ok ⟨host, name, user, pass, port, mn, mx⟩

/-- Property connection_url (db.py lines 29-31): the raw-protocol URL
derived from the fields. -/
def DbConnectionConfig.connection_url (c : DbConnectionConfig) : String :=
  "postgresql://" ++ c.db_username ++ ":" ++ c.db_password ++ "@"
    ++ c.db_host ++ ":" ++ toString c.db_port ++ "/" ++ c.db_name

/-- Property async_connection_url (db.py lines 33-35): the engine-style
URL derived from the fields. -/
def DbConnectionConfig.async_connection_url (c : DbConnectionConfig) : String :=
  "postgresql+asyncpg://" ++ c.db_username ++ ":" ++ c.db_password ++ "@"
    ++ c.db_host ++ ":" ++ toString c.db_port ++ "/" ++ c.db_name

/-- Row: a mapping from column name to value; both backends normalise
native rows into this form (dict(row) resp. row._asdict()). Values are
modelled as integers, enough to distinguish rows. -/
abbrev Row := List (String × Int)

/-- Model of the dict(row) conversion the asyncpg backend applies to each
native record; records are already carried in mapping form here, so the
conversion is the identity on the mapping content. -/
def pyDict (r : Row) : Row := r

/-- Model of the row._asdict() conversion the SQLAlchemy backend applies
to each result row; the identity on the mapping content, as for `pyDict`. -/
def rowAsdict (r : Row) : Row := r

/-- Statement issued through execute or executemany: the query text, its
parameters, and whether the driver raises for it (syntax error,
constraint violation, ...). -/
structure Stmt where
  query : String
  params : List Int
  fails : Bool
deriving DecidableEq, Repr

/-- Durable database content: the list of committed statements, in the
order their effects were applied. -/
abbrev DbData := List Stmt

/-- Driver model shared by both backends: executing one statement on a
connection or session of its own, committed immediately (the auto-commit
the source relies on outside explicit transactions). A failing statement
raises a driver error and changes nothing. -/
def runStmtAutoCommit (s : Stmt) (db : DbData) : DbData × Option PyError :=
  if s.fails then (db, some (.driverError s.query)) else (db ++ [s], none)

/-- Driver model of executing a list of statements one by one inside a
single staging context (a SQLAlchemy session before commit, or the single
implicit transaction asyncpg uses for executemany): the first failing
statement raises and nothing is staged durably; otherwise all statements
are staged in order. -/
def batchStage : List Stmt → Except PyError (List Stmt)
  | [] => .ok []
  | s :: rest =>
    if s.fails then .error (.driverError s.query)
    else
      match batchStage rest with
      | .ok staged => .ok (s :: staged)
      | .error e => .error e

/-- Message of the RuntimeError the asyncpg backend raises when an
operation runs without a pool (db.py lines 132, 140, 148, 155, 163). -/
def asyncpgNotConnectedMsg : String := "Database not connected."

/-- Message of the RuntimeError the SQLAlchemy backend raises when an
operation runs without an engine (db.py lines 213-215 and the three
analogous guards). -/
def sqlalchemyNotConnectedMsg : String :=
  "Database not connected. Use SqlAlchemyDatabase.create() to create an instance."

/-- Message of the ImportError raised when SQLAlchemy is requested but
not installed (db.py lines 172-174 and 293-295). -/
def sqlalchemyMissingMsg : String :=
  "SQLAlchemy is not installed. Install it with: pip install sqlalchemy[asyncpg]"

/-- Placeholder message for the error the driver raises when the network
or authentication handshake fails during pool creation. -/
def handshakeFailedMsg : String := "connection handshake failed"

/-- State of an asyncpg.Pool as created by connect (db.py lines 113-121):
the connection parameters and pool bounds passed to asyncpg.create_pool. -/
structure AsyncpgPool where
  host : String
  port : Int
  user : String
  password : String
  database : String
  min_size : Int
  max_size : Int
deriving DecidableEq, Repr

/-- State of an AsyncpgDatabase instance (db.py lines 93-96): the config
and the optional pool handle, None until connect() succeeds. -/
structure AsyncpgDatabase where
  config : DbConnectionConfig
  pool : Option AsyncpgPool
deriving DecidableEq, Repr

/-- Constructor AsyncpgDatabase.__init__ (db.py lines 94-96): stores the
config and sets the pool handle to None. -/
def AsyncpgDatabase.mkInstance (config : DbConnectionConfig) : AsyncpgDatabase :=
  ⟨config, none⟩

/-- Property is_connected (db.py lines 105-108): true iff the pool handle
is non-null. -/
def AsyncpgDatabase.is_connected (d : AsyncpgDatabase) : Bool :=
  d.pool.isSome

/-- Method connect (db.py lines 110-121): when the pool is None, create
it via asyncpg.create_pool with the config fields and the min/max bounds;
otherwise do nothing. Pool creation opens connections eagerly, so it can
fail with the driver handshake error, modelled by `handshakeOk`. -/
def AsyncpgDatabase.connect (d : AsyncpgDatabase) (handshakeOk : Bool) :
    Except PyError AsyncpgDatabase :=
  match d.pool with
  | some _ => .ok d
  | none =>
    if handshakeOk then
      .ok { d with pool := some ⟨d.config.db_host, d.config.db_port,
        d.config.db_username, d.config.db_password, d.config.db_name,
        d.config.min_connections, d.config.max_connections⟩ }
    else
      .error (.connectionError handshakeFailedMsg)

/-- Method close (db.py lines 123-127): when a pool exists, close it and
clear the handle; otherwise do nothing. -/
def AsyncpgDatabase.close (d : AsyncpgDatabase) : AsyncpgDatabase :=
  match d.pool with
  | some _ => { d with pool := none }
  | none => d

/-- Classmethod AsyncpgDatabase.create (db.py lines 98-103): construct an
instance and connect it. -/
def AsyncpgDatabase.create (config : DbConnectionConfig) (handshakeOk : Bool) :
    Except PyError AsyncpgDatabase :=
  (AsyncpgDatabase.mkInstance config).connect handshakeOk

/-- Method _fetch, reached through fetch (db.py lines 72-74 and 129-135):
guard on the pool, acquire a connection, fetch the rows the driver
returns (the `rows` parameter) and convert each record to a dict. -/
def AsyncpgDatabase.fetch (d : AsyncpgDatabase) (rows : List Row) :
    Except PyError (List Row) :=
  if d.pool.isNone then .error (.runtimeError asyncpgNotConnectedMsg)
  else .ok (rows.map pyDict)

/-- Method _fetchrow, reached through fetchrow (db.py lines 76-78 and
137-143): guard on the pool, acquire a connection, take the first row the
driver returns or None, and convert it to a dict when present. -/
def AsyncpgDatabase.fetchrow (d : AsyncpgDatabase) (rows : List Row) :
    Except PyError (Option Row) :=
  if d.pool.isNone then .error (.runtimeError asyncpgNotConnectedMsg)
  else .ok (Option.map pyDict rows.head?)

/-- Method _execute, reached through execute (db.py lines 80-82 and
145-150), status view: guard on the pool, run the statement on an
acquired connection and return the driver status string (the `status`
parameter). -/
def AsyncpgDatabase.executeStatus (d : AsyncpgDatabase) (status : String) :
    Except PyError String :=
  if d.pool.isNone then .error (.runtimeError asyncpgNotConnectedMsg)
  else .ok status

/-- Method _execute, effect view (db.py lines 145-150): the statement
runs on a freshly acquired pool connection outside any explicit
transaction, so the driver commits it immediately on success. -/
def AsyncpgDatabase.executeEff (d : AsyncpgDatabase) (s : Stmt) (db : DbData) :
    DbData × Option PyError :=
  if d.pool.isNone then (db, some (.runtimeError asyncpgNotConnectedMsg))
  else runStmtAutoCommit s db

/-- Sequence of execute calls on the backend, each acquiring its own pool
connection and auto-committing (db.py lines 145-150 iterated); stops at
the first raised error, keeping the effects committed before it. -/
def AsyncpgDatabase.executeSeq (d : AsyncpgDatabase) :
    List Stmt → DbData → DbData × Option PyError
  | [], db => (db, none)
  | s :: rest, db =>
    match d.executeEff s db with
    | (db1, none) => d.executeSeq rest db1
    | (db1, some e) => (db1, some e)

/-- Method _executemany, reached through executemany (db.py lines 84-86
and 152-157): guard on the pool, then delegate the whole batch to
Connection.executemany, which asyncpg runs inside one implicit
transaction (all statements or none). -/
def AsyncpgDatabase.executemany (d : AsyncpgDatabase) (stmts : List Stmt)
    (db : DbData) : DbData × Option PyError :=
  if d.pool.isNone then (db, some (.runtimeError asyncpgNotConnectedMsg))
  else
    match batchStage stmts with
    | .ok staged => (db ++ staged, none)
    | .error e => (db, some e)

/-- Method _transaction, reached through transaction (db.py lines 88-90
and 159-166), run around a with-block body. The source acquires one pool
connection, opens a transaction on it and yields None: the body receives
no handle to that connection, so every statement the body issues goes
through self.execute, which acquires a different pool connection and
auto-commits there (db.py lines 145-150). On scope exit the driver
commits or rolls back the held connection, which executed no statements,
so the exit path leaves the data exactly as the body left it. -/
def AsyncpgDatabase.transactionScope (d : AsyncpgDatabase) (body : List Stmt)
    (db : DbData) : DbData × Option PyError :=
  if d.pool.isNone then (db, some (.runtimeError asyncpgNotConnectedMsg))
  else d.executeSeq body db

/-- State of the SQLAlchemy async engine as created by connect (db.py
lines 197-202): the URL, echo flag and the two pool sizing arguments. -/
structure SqlAlchemyEngine where
  url : String
  echo : Bool
  pool_size : Int
  max_overflow : Int
deriving DecidableEq, Repr

/-- State of a SqlAlchemyDatabase instance (db.py lines 169-176): the
config and the optional engine handle, None until connect() runs. -/
structure SqlAlchemyDatabase where
  config : DbConnectionConfig
  engine : Option SqlAlchemyEngine
deriving DecidableEq, Repr

/-- Constructor SqlAlchemyDatabase.__init__ (db.py lines 170-176): raises
ImportError when the sqlalchemy import failed at module load (modelled by
the `hasSqlAlchemy` flag), otherwise stores the config with a None
engine. -/
def SqlAlchemyDatabase.mkInstance (hasSqlAlchemy : Bool)
    (config : DbConnectionConfig) : Except PyError SqlAlchemyDatabase :=
  if !hasSqlAlchemy then .error (.importErr sqlalchemyMissingMsg)
  else .ok ⟨config, none⟩

/-- Property is_connected (db.py lines 185-188): true iff the engine
handle is non-null. -/
def SqlAlchemyDatabase.is_connected (d : SqlAlchemyDatabase) : Bool :=
  d.engine.isSome

/-- Method connect (db.py lines 190-202): when the engine is None, build
it via create_async_engine with the async URL, echo False, pool_size =
min_connections and max_overflow = max(0, max_connections -
min_connections); otherwise do nothing. Engine creation is lazy (no
network traffic), so it does not fail here. -/
def SqlAlchemyDatabase.connect (d : SqlAlchemyDatabase) : SqlAlchemyDatabase :=
  match d.engine with
  | some _ => d
  | none =>
    { d with engine := some ⟨d.config.async_connection_url, false,
        d.config.min_connections,
        max 0 (d.config.max_connections - d.config.min_connections)⟩ }

/-- Method close (db.py lines 204-208): when an engine exists, dispose it
and clear the handle; otherwise do nothing. -/
def SqlAlchemyDatabase.close (d : SqlAlchemyDatabase) : SqlAlchemyDatabase :=
  match d.engine with
  | some _ => { d with engine := none }
  | none => d

/-- Classmethod SqlAlchemyDatabase.create (db.py lines 178-183):
construct an instance and connect it. -/
def SqlAlchemyDatabase.create (hasSqlAlchemy : Bool)
    (config : DbConnectionConfig) : Except PyError SqlAlchemyDatabase :=
  match SqlAlchemyDatabase.mkInstance hasSqlAlchemy config with
  | .error e => .error e
  | .ok inst => .ok inst.connect

/-- Method _fetch, reached through fetch (db.py lines 72-74 and 210-219):
guard on the engine, open a session, execute the query, and convert each
result row via _asdict, returning the empty list for an empty result. -/
def SqlAlchemyDatabase.fetch (d : SqlAlchemyDatabase) (rows : List Row) :
    Except PyError (List Row) :=
  if d.engine.isNone then .error (.runtimeError sqlalchemyNotConnectedMsg)
  else .ok (if rows.isEmpty then [] else rows.map rowAsdict)

/-- Method _fetchrow, reached through fetchrow (db.py lines 76-78 and
221-230): guard on the engine, open a session, take the first result row
or None, and convert it via _asdict when present. -/
def SqlAlchemyDatabase.fetchrow (d : SqlAlchemyDatabase) (rows : List Row) :
    Except PyError (Option Row) :=
  if d.engine.isNone then .error (.runtimeError sqlalchemyNotConnectedMsg)
  else .ok (Option.map rowAsdict rows.head?)

/-- Method _execute, reached through execute (db.py lines 80-82 and
232-241), status view: guard on the engine, execute and commit in one
session, and return the string ROWS followed by the result rowcount. -/
def SqlAlchemyDatabase.executeStatus (d : SqlAlchemyDatabase) (rowcount : Int) :
    Except PyError String :=
  if d.engine.isNone then .error (.runtimeError sqlalchemyNotConnectedMsg)
  else .ok ("ROWS " ++ toString rowcount)

/-- Method _execute, effect view (db.py lines 232-241): the statement
runs in a session of its own, followed immediately by session.commit, so
on success its effect is durable at once. -/
def SqlAlchemyDatabase.executeEff (d : SqlAlchemyDatabase) (s : Stmt)
    (db : DbData) : DbData × Option PyError :=
  if d.engine.isNone then (db, some (.runtimeError sqlalchemyNotConnectedMsg))
  else runStmtAutoCommit s db

/-- Sequence of execute calls on the backend, each in its own committed
session (db.py lines 232-241 iterated); stops at the first raised error,
keeping the effects committed before it. -/
def SqlAlchemyDatabase.executeSeq (d : SqlAlchemyDatabase) :
    List Stmt → DbData → DbData × Option PyError
  | [], db => (db, none)
  | s :: rest, db =>
    match d.executeEff s db with
    | (db1, none) => d.executeSeq rest db1
    | (db1, some e) => (db1, some e)

/-- Method _executemany, reached through executemany (db.py lines 84-86
and 243-252): guard on the engine, open ONE session, execute the
statement once per parameter tuple inside that session, and commit once
at the end. A failing tuple raises before the commit is reached; the
session then closes without commit, rolling back everything staged. -/
def SqlAlchemyDatabase.executemany (d : SqlAlchemyDatabase) (stmts : List Stmt)
    (db : DbData) : DbData × Option PyError :=
  if d.engine.isNone then (db, some (.runtimeError sqlalchemyNotConnectedMsg))
  else
    match batchStage stmts with
    | .ok staged => (db ++ staged, none)
    | .error e => (db, some e)

/-- Method _transaction, reached through transaction (db.py lines 88-90
and 254-263), run around a with-block body. The source opens one session,
begins a transaction on it and yields None: the body receives no handle
to that session, so every statement the body issues goes through
self.execute, which opens a different session and commits there (db.py
lines 232-241). On scope exit the held session commits or rolls back
having executed no statements, so the exit path leaves the data exactly
as the body left it. -/
def SqlAlchemyDatabase.transactionScope (d : SqlAlchemyDatabase)
    (body : List Stmt) (db : DbData) : DbData × Option PyError :=
  if d.engine.isNone then (db, some (.runtimeError sqlalchemyNotConnectedMsg))
  else d.executeSeq body db

/-- Concrete backend held by the Db selector: one of the two BaseDatabase
subclasses (db.py lines 93 and 169). -/
inductive BackendInstance where
  | asyncpgDb (d : AsyncpgDatabase)
  | sqlalchemyDb (d : SqlAlchemyDatabase)
deriving DecidableEq, Repr

/-- Dispatch of is_connected over the concrete backend. -/
def BackendInstance.is_connected : BackendInstance → Bool
  | .asyncpgDb d => d.is_connected
  | .sqlalchemyDb d => d.is_connected

/-- Dispatch of fetch over the concrete backend. -/
def BackendInstance.fetch (b : BackendInstance) (rows : List Row) :
    Except PyError (List Row) :=
  match b with
  | .asyncpgDb d => d.fetch rows
  | .sqlalchemyDb d => d.fetch rows

/-- Dispatch of fetchrow over the concrete backend. -/
def BackendInstance.fetchrow (b : BackendInstance) (rows : List Row) :
    Except PyError (Option Row) :=
  match b with
  | .asyncpgDb d => d.fetchrow rows
  | .sqlalchemyDb d => d.fetchrow rows

/-- Dispatch of the effect view of execute over the concrete backend. -/
def BackendInstance.executeEff (b : BackendInstance) (s : Stmt) (db : DbData) :
    DbData × Option PyError :=
  match b with
  | .asyncpgDb d => d.executeEff s db
  | .sqlalchemyDb d => d.executeEff s db

/-- Dispatch of executemany over the concrete backend. -/
def BackendInstance.executemany (b : BackendInstance) (stmts : List Stmt)
    (db : DbData) : DbData × Option PyError :=
  match b with
  | .asyncpgDb d => d.executemany stmts db
  | .sqlalchemyDb d => d.executemany stmts db

/-- Dispatch of the transaction scope over the concrete backend. -/
def BackendInstance.transactionScope (b : BackendInstance) (body : List Stmt)
    (db : DbData) : DbData × Option PyError :=
  match b with
  | .asyncpgDb d => d.transactionScope body db
  | .sqlalchemyDb d => d.transactionScope body db

/-- State of a Db selector instance (db.py lines 266-285): the config,
the backend-kind flag, and the optional backend reference set by
_initialize_database (None until then). -/
structure Db where
  db_config : DbConnectionConfig
  use_sql_alchemy : Bool
  db_instance : Option BackendInstance
deriving DecidableEq, Repr

/-- Message of the RuntimeError the database property raises before
initialisation (db.py line 304). -/
def dbNotInitializedMsg : String := "Database not initialized."

/-- Property Db.database (db.py lines 300-305): the backend reference, or
a RuntimeError when the instance is not initialised. Every proxied
attribute access goes through it (db.py lines 307-309). -/
def Db.database (db : Db) : Except PyError BackendInstance :=
  match db.db_instance with
  | none => .error (.runtimeError dbNotInitializedMsg)
  | some b => .ok b

/-- Proxied fetch: Db.__getattr__ (db.py lines 307-309) resolves the name
on self.database and the call runs on the backend with the same
arguments. -/
def Db.fetch (db : Db) (rows : List Row) : Except PyError (List Row) :=
  match db.database with
  | .error e => .error e
  | .ok b => b.fetch rows

/-- Proxied fetchrow through Db.__getattr__ (db.py lines 307-309). -/
def Db.fetchrow (db : Db) (rows : List Row) : Except PyError (Option Row) :=
  match db.database with
  | .error e => .error e
  | .ok b => b.fetchrow rows

/-- Proxied execute (effect view) through Db.__getattr__ (db.py lines
307-309). The uninitialised error leaves the data unchanged. -/
def Db.executeEff (db : Db) (s : Stmt) (data : DbData) :
    DbData × Option PyError :=
  match db.database with
  | .error e => (data, some e)
  | .ok b => b.executeEff s data

/-- Proxied executemany through Db.__getattr__ (db.py lines 307-309). -/
def Db.executemany (db : Db) (stmts : List Stmt) (data : DbData) :
    DbData × Option PyError :=
  match db.database with
  | .error e => (data, some e)
  | .ok b => b.executemany stmts data

/-- Proxied transaction scope through Db.__getattr__ (db.py lines
307-309). -/
def Db.transactionScope (db : Db) (body : List Stmt) (data : DbData) :
    DbData × Option PyError :=
  match db.database with
  | .error e => (data, some e)
  | .ok b => b.transactionScope body data

/-- Proxied is_connected through Db.__getattr__ (db.py lines 307-309);
the attribute access itself raises when the instance is not
initialised. -/
def Db.is_connected (db : Db) : Except PyError Bool :=
  match db.database with
  | .error e => .error e
  | .ok b => .ok b.is_connected

/-- Classmethod Db._create together with _initialize_database (db.py
lines 277-298): allocate the instance, store the config and the flag with
a None backend reference, then build and connect the chosen backend and
store it. The sqlalchemy import flag and the handshake outcome are the
environment parameters described at the top of the file. -/
def Db.createDb (hasSqlAlchemy handshakeOk : Bool)
    (db_config : DbConnectionConfig) (use_sql_alchemy : Bool) :
    Except PyError Db :=
  if use_sql_alchemy then
    if !hasSqlAlchemy then .error (.importErr sqlalchemyMissingMsg)
    else
      match SqlAlchemyDatabase.create hasSqlAlchemy db_config with
      | .error e => .error e
      | .ok inst => .ok ⟨db_config, use_sql_alchemy, some (.sqlalchemyDb inst)⟩
  else
    match AsyncpgDatabase.create db_config handshakeOk with
    | .error e => .error e
    | .ok inst => .ok ⟨db_config, use_sql_alchemy, some (.asyncpgDb inst)⟩

/-- Coroutine object: the unrun awaitable a Python async call returns;
awaiting it runs the stored computation. -/
structure Coroutine (α : Type) where
  run : Except PyError α

/-- Awaiting a coroutine runs it. -/
def Coroutine.awaited {α : Type} (c : Coroutine α) : Except PyError α :=
  c.run

/-- Method Db.__new__ (db.py lines 273-275): instead of an instance, the
synchronous call returns the coroutine produced by cls._create, to be
awaited by the caller. -/
def Db.new (hasSqlAlchemy handshakeOk : Bool)
    (db_config : DbConnectionConfig) (use_sql_alchemy : Bool) :
    Coroutine Db :=
  ⟨Db.createDb hasSqlAlchemy handshakeOk db_config use_sql_alchemy⟩

/-- Sample configuration matching the basic usage example of db.py. -/
def sampleConfig : DbConnectionConfig :=
  ⟨"localhost", "mydb", "user", "pw", 5432, 1, 10⟩

/-- Sample configuration differing from `sampleConfig` only in the host. -/
def altConfig : DbConnectionConfig :=
  ⟨"otherhost", "mydb", "user", "pw", 5432, 1, 10⟩

/-- Configuration with min_connections greater than max_connections. -/
def badConfig : DbConnectionConfig :=
  ⟨"localhost", "mydb", "user", "pw", 5432, 5, 2⟩

/-- Pool created by a successful connect on `sampleConfig`. -/
def samplePool : AsyncpgPool :=
  ⟨"localhost", 5432, "user", "pw", "mydb", 1, 10⟩

/-- Asyncpg backend in the connected state for `sampleConfig`. -/
def aConnSample : AsyncpgDatabase := ⟨sampleConfig, some samplePool⟩

/-- Engine created by connect on `sampleConfig`. -/
def sEngineSample : SqlAlchemyEngine :=
  ⟨sampleConfig.async_connection_url, false, sampleConfig.min_connections,
    max 0 (sampleConfig.max_connections - sampleConfig.min_connections)⟩

/-- SQLAlchemy backend in the connected state for `sampleConfig`. -/
def sConnSample : SqlAlchemyDatabase := ⟨sampleConfig, some sEngineSample⟩

/-- Sample statement that the driver accepts. -/
def stmtOkA : Stmt := ⟨"INSERT INTO t VALUES (1)", [1], false⟩

/-- Second sample statement that the driver accepts. -/
def stmtOkB : Stmt := ⟨"INSERT INTO t VALUES (2)", [2], false⟩

/-- Sample statement on which the driver raises (say a constraint
violation). -/
def stmtBad : Stmt := ⟨"INSERT INTO t VALUES (0)", [0], true⟩

/-- Staging a batch whose statements all succeed stages exactly the
batch, in order. -/
theorem batchStage_all_ok (stmts : List Stmt)
    (h : ∀ s ∈ stmts, s.fails = false) : batchStage stmts = .ok stmts := by
  induction stmts with
  | nil => rfl
  | cons s rest ih =>
    have hs : s.fails = false := h s (List.mem_cons_self s rest)
    have hr := ih (fun t ht => h t (List.mem_cons_of_mem s ht))
    simp [batchStage, hs, hr]

/-- Staging a batch containing a failing statement raises a driver
error. -/
theorem batchStage_has_failure (stmts : List Stmt)
    (h : ∃ s ∈ stmts, s.fails = true) : ∃ e, batchStage stmts = .error e := by
  induction stmts with
  | nil =>
    rcases h with ⟨s, hs, _⟩
    exact absurd hs (List.not_mem_nil s)
  | cons s rest ih =>
    by_cases hf : s.fails = true
    · exact ⟨.driverError s.query, by simp [batchStage, hf]⟩
    · rcases h with ⟨t, ht, htf⟩
      rcases List.mem_cons.mp ht with rfl | hmem
      · exact absurd htf hf
      · rcases ih ⟨t, hmem, htf⟩ with ⟨e, he⟩
        refine ⟨e, ?_⟩
        simp only [batchStage, Bool.not_eq_true] at *
        simp [hf, he]

/-- Disconnected asyncpg backends carry no pool. -/
theorem AsyncpgDatabase.pool_eq_none_of_not_connected (d : AsyncpgDatabase)
    (h : d.is_connected = false) : d.pool = none := by
  cases hp : d.pool with
  | none => rfl
  | some p => simp [AsyncpgDatabase.is_connected, hp] at h

/-- Disconnected SQLAlchemy backends carry no engine. -/
theorem SqlAlchemyDatabase.engine_eq_none_of_not_connected
    (d : SqlAlchemyDatabase) (h : d.is_connected = false) : d.engine = none := by
  cases hp : d.engine with
  | none => rfl
  | some e => simp [SqlAlchemyDatabase.is_connected, hp] at h

/-- C1, counterexample: constructing a DbConnectionConfig with
min_connections = 5 greater than max_connections = 2 does not fail with a
ConfigurationError: construction succeeds and stores the inverted pool
bounds unchanged. -/
theorem C1_counterexample :
    DbConnectionConfig.construct "localhost" "mydb" "user" "pw" 5432 5 2
      = .ok ⟨"localhost", "mydb", "user", "pw", 5432, 5, 2⟩
    ∧ ¬ ((5 : Int) ≤ 2) := ⟨rfl, by decide⟩

/-- C1, amended: DbConnectionConfig declares no validator beyond pydantic
field typing, so for well-typed fields construction always succeeds and
stores the fields unchanged - including configs with min_connections
greater than max_connections or with a non-positive port; neither the
invariant min ≤ max nor port > 0 is enforced, and no ConfigurationError
is raised. -/
theorem C1_construct_total (host name user pass : String) (port mn mx : Int) :
    DbConnectionConfig.construct host name user pass port mn mx
      = .ok ⟨host, name, user, pass, port, mn, mx⟩ := rfl

/-- C2, counterexample: on fresh, never connected backends the same fetch
call fails with a RuntimeError on both backends, but not identically: the
two backends raise different error messages. -/
theorem C2_counterexample :
    (AsyncpgDatabase.mkInstance sampleConfig).fetch []
      = .error (.runtimeError asyncpgNotConnectedMsg)
    ∧ (SqlAlchemyDatabase.mk sampleConfig none).fetch []
      = .error (.runtimeError sqlalchemyNotConnectedMsg)
    ∧ asyncpgNotConnectedMsg ≠ sqlalchemyNotConnectedMsg :=
  ⟨rfl, rfl, by decide⟩

/-- C2, amended: every query/transaction operation invoked while
is_connected is false (before connect() succeeded or after close()) fails
with a not-connected RuntimeError on both backends; the guard and the
exception type coincide across backends, but the messages differ (the
engine-based backend appends guidance to use its create() factory). -/
theorem C2_not_connected_errors (a : AsyncpgDatabase) (s : SqlAlchemyDatabase)
    (rows : List Row) (st : String) (rc : Int) (stmt : Stmt)
    (stmts body : List Stmt) (data : DbData)
    (ha : a.is_connected = false) (hs : s.is_connected = false) :
    (a.fetch rows = .error (.runtimeError asyncpgNotConnectedMsg)
      ∧ a.fetchrow rows = .error (.runtimeError asyncpgNotConnectedMsg)
      ∧ a.executeStatus st = .error (.runtimeError asyncpgNotConnectedMsg)
      ∧ a.executeEff stmt data
          = (data, some (.runtimeError asyncpgNotConnectedMsg))
      ∧ a.executemany stmts data
          = (data, some (.runtimeError asyncpgNotConnectedMsg))
      ∧ a.transactionScope body data
          = (data, some (.runtimeError asyncpgNotConnectedMsg)))
    ∧ (s.fetch rows = .error (.runtimeError sqlalchemyNotConnectedMsg)
      ∧ s.fetchrow rows = .error (.runtimeError sqlalchemyNotConnectedMsg)
      ∧ s.executeStatus rc = .error (.runtimeError sqlalchemyNotConnectedMsg)
      ∧ s.executeEff stmt data
          = (data, some (.runtimeError sqlalchemyNotConnectedMsg))
      ∧ s.executemany stmts data
          = (data, some (.runtimeError sqlalchemyNotConnectedMsg))
      ∧ s.transactionScope body data
          = (data, some (.runtimeError sqlalchemyNotConnectedMsg))) := by
  have hpa : a.pool = none := a.pool_eq_none_of_not_connected ha
  have hpe : s.engine = none := s.engine_eq_none_of_not_connected hs
  refine ⟨⟨?_, ?_, ?_, ?_, ?_, ?_⟩, ⟨?_, ?_, ?_, ?_, ?_, ?_⟩⟩ <;>
    simp [AsyncpgDatabase.fetch, AsyncpgDatabase.fetchrow,
      AsyncpgDatabase.executeStatus, AsyncpgDatabase.executeEff,
      AsyncpgDatabase.executemany, AsyncpgDatabase.transactionScope,
      SqlAlchemyDatabase.fetch, SqlAlchemyDatabase.fetchrow,
      SqlAlchemyDatabase.executeStatus, SqlAlchemyDatabase.executeEff,
      SqlAlchemyDatabase.executemany, SqlAlchemyDatabase.transactionScope,
      hpa, hpe]

/-- C2, witness: the amended theorem at fresh backends for a concrete
call of each kind. -/
theorem C2_witness :
    (AsyncpgDatabase.mkInstance sampleConfig).fetchrow []
      = .error (.runtimeError asyncpgNotConnectedMsg)
    ∧ (SqlAlchemyDatabase.mk sampleConfig none).executemany [stmtOkA] []
      = ([], some (.runtimeError sqlalchemyNotConnectedMsg)) := by
  have h := C2_not_connected_errors (AsyncpgDatabase.mkInstance sampleConfig)
    (SqlAlchemyDatabase.mk sampleConfig none) [] "" 0 stmtOkA [stmtOkA] [] []
    rfl rfl
  exact ⟨h.1.2.1, h.2.2.2.2.2.1⟩

/-- C3, code bug: transaction scopes are not atomic on either backend.
The source opens a transaction on an acquired connection or session but
yields None, so the statements the caller issues inside the scope run
through execute, each on a separate auto-committing connection or
session. Evaluated at the failing input: a body issuing stmtOkA
(succeeds) then stmtBad (driver error) leaves the effect of stmtOkA
observable even though the exception escapes the scope, contradicting the
rollback half of the claim; the commit half behaves as claimed (first two
conjuncts show the bug, last two the commit half, on both backends). -/
theorem C3_transaction_not_atomic :
    aConnSample.transactionScope [stmtOkA, stmtBad] []
      = ([stmtOkA], some (.driverError stmtBad.query))
    ∧ sConnSample.transactionScope [stmtOkA, stmtBad] []
      = ([stmtOkA], some (.driverError stmtBad.query))
    ∧ aConnSample.transactionScope [stmtOkA, stmtOkB] []
      = ([stmtOkA, stmtOkB], none)
    ∧ sConnSample.transactionScope [stmtOkA, stmtOkB] []
      = ([stmtOkA, stmtOkB], none) :=
  ⟨rfl, rfl, rfl, rfl⟩

/-- C4: on a connected engine-based backend, executemany runs the
parameter tuples as separate statements of one session with a single
commit at the end, so the batch is atomic: when every statement succeeds
the whole batch is appended in order, and when any statement fails the
driver raises before the commit and no effect of the batch is observable
afterwards. -/
theorem C4_executemany_atomic (d : SqlAlchemyDatabase) (stmts : List Stmt)
    (data : DbData) (hc : d.is_connected = true) :
    ((∀ s ∈ stmts, s.fails = false) →
      d.executemany stmts data = (data ++ stmts, none))
    ∧ ((∃ s ∈ stmts, s.fails = true) →
      (d.executemany stmts data).1 = data
      ∧ ((d.executemany stmts data).2).isSome = true) := by
  cases he : d.engine with
  | none => simp [SqlAlchemyDatabase.is_connected, he] at hc
  | some e =>
    constructor
    · intro hall
      simp [SqlAlchemyDatabase.executemany, he, batchStage_all_ok stmts hall]
    · intro hex
      rcases batchStage_has_failure stmts hex with ⟨e1, he1⟩
      simp [SqlAlchemyDatabase.executemany, he, he1]

/-- C4, witness: the theorem at a connected backend, once for a batch
that succeeds and once for a batch whose middle tuple fails. -/
theorem C4_witness :
    sConnSample.executemany [stmtOkA, stmtOkB] [] = ([stmtOkA, stmtOkB], none)
    ∧ (sConnSample.executemany [stmtOkA, stmtBad, stmtOkB] []).1 = [] := by
  have h1 := (C4_executemany_atomic sConnSample [stmtOkA, stmtOkB] [] rfl).1
    (by decide)
  have h2 := (C4_executemany_atomic sConnSample [stmtOkA, stmtBad, stmtOkB]
    [] rfl).2 ⟨stmtBad, by decide, rfl⟩
  exact ⟨h1, h2.1⟩

/-- C5: for both backends is_connected holds exactly when the pool or
engine handle is non-null; along the lifecycle this gives a freshly
constructed backend that is not connected, a connected backend after
every successful connect, and a disconnected backend after every
close. -/
theorem C5_lifecycle (config : DbConnectionConfig) (hasSA hs : Bool)
    (a a1 : AsyncpgDatabase) (s s0 : SqlAlchemyDatabase) :
    (a.is_connected = a.pool.isSome)
    ∧ ((AsyncpgDatabase.mkInstance config).is_connected = false)
    ∧ (a.connect hs = .ok a1 → a1.is_connected = true)
    ∧ (a.close.is_connected = false)
    ∧ (s.is_connected = s.engine.isSome)
    ∧ (SqlAlchemyDatabase.mkInstance hasSA config = .ok s0 →
        s0.is_connected = false)
    ∧ (s.connect.is_connected = true)
    ∧ (s.close.is_connected = false) := by
  refine ⟨rfl, rfl, ?_, ?_, rfl, ?_, ?_, ?_⟩
  · intro h
    cases hp : a.pool with
    | some p =>
      simp only [AsyncpgDatabase.connect, hp, Except.ok.injEq] at h
      subst h
      simp [AsyncpgDatabase.is_connected, hp]
    | none =>
      cases hhs : hs with
      | true =>
        simp only [AsyncpgDatabase.connect, hp, hhs, if_true,
          Except.ok.injEq] at h
        subst h
        simp [AsyncpgDatabase.is_connected]
      | false =>
        simp [AsyncpgDatabase.connect, hp, hhs] at h
  · cases hp : a.pool <;>
      simp [AsyncpgDatabase.close, AsyncpgDatabase.is_connected, hp]
  · intro h
    cases hsa : hasSA with
    | false => simp [SqlAlchemyDatabase.mkInstance, hsa] at h
    | true =>
      simp only [SqlAlchemyDatabase.mkInstance, hsa, Bool.not_true,
        Bool.false_eq_true, if_false, Except.ok.injEq] at h
      subst h
      rfl
  · cases he : s.engine <;>
      simp [SqlAlchemyDatabase.connect, SqlAlchemyDatabase.is_connected, he]
  · cases he : s.engine <;>
      simp [SqlAlchemyDatabase.close, SqlAlchemyDatabase.is_connected, he]

/-- C5, witness: the lifecycle theorem at the sample config, discharging
the successful-connect and successful-construction hypotheses with the
concrete states they produce. -/
theorem C5_witness :
    aConnSample.is_connected = true
    ∧ (SqlAlchemyDatabase.mk sampleConfig none).is_connected = false
    ∧ (AsyncpgDatabase.mkInstance sampleConfig).close.is_connected = false
    ∧ sConnSample.connect.is_connected = true := by
  have h := C5_lifecycle sampleConfig true true
    (AsyncpgDatabase.mkInstance sampleConfig) aConnSample
    sConnSample (SqlAlchemyDatabase.mk sampleConfig none)
  exact ⟨h.2.2.1 rfl, h.2.2.2.2.2.1 rfl, h.2.2.2.1, h.2.2.2.2.2.2.1⟩

/-- C6: connect is idempotent on both backends: invoked on an already
connected instance it is a no-op returning the state unchanged, and after
one successful connect the second connect returns exactly the state
produced by the first, so the pool or engine is created exactly once. -/
theorem C6_connect_idempotent (a a1 : AsyncpgDatabase) (hs hs2 : Bool)
    (s : SqlAlchemyDatabase) :
    (a.is_connected = true → a.connect hs = .ok a)
    ∧ (a.connect hs = .ok a1 → a1.connect hs2 = .ok a1)
    ∧ (s.is_connected = true → s.connect = s)
    ∧ (s.connect.connect = s.connect) := by
  refine ⟨?_, ?_, ?_, ?_⟩
  · intro h
    cases hp : a.pool with
    | none => simp [AsyncpgDatabase.is_connected, hp] at h
    | some p => simp [AsyncpgDatabase.connect, hp]
  · intro h
    have h1 : a1.is_connected = true := by
      cases hp : a.pool with
      | some p =>
        simp only [AsyncpgDatabase.connect, hp, Except.ok.injEq] at h
        subst h
        simp [AsyncpgDatabase.is_connected, hp]
      | none =>
        cases hhs : hs with
        | true =>
          simp only [AsyncpgDatabase.connect, hp, hhs, if_true,
            Except.ok.injEq] at h
          subst h
          simp [AsyncpgDatabase.is_connected]
        | false => simp [AsyncpgDatabase.connect, hp, hhs] at h
    cases hp1 : a1.pool with
    | none => simp [AsyncpgDatabase.is_connected, hp1] at h1
    | some p => simp [AsyncpgDatabase.connect, hp1]
  · intro h
    cases he : s.engine with
    | none => simp [SqlAlchemyDatabase.is_connected, he] at h
    | some e => simp [SqlAlchemyDatabase.connect, he]
  · cases he : s.engine with
    | some e => simp [SqlAlchemyDatabase.connect, he]
    | none =>
      show SqlAlchemyDatabase.connect _ = _
      simp [SqlAlchemyDatabase.connect, he]

/-- C6, witness: idempotence at the sample states: a second connect after
the successful first connect of the fresh asyncpg backend is a no-op even
when the second handshake would fail, and connect on the connected
SQLAlchemy backend returns it unchanged. -/
theorem C6_witness :
    aConnSample.connect false = .ok aConnSample
    ∧ sConnSample.connect = sConnSample
    ∧ sConnSample.connect.connect = sConnSample.connect := by
  have h1 := (C6_connect_idempotent (AsyncpgDatabase.mkInstance sampleConfig)
    aConnSample true false sConnSample).2.1 rfl
  have h2 := (C6_connect_idempotent aConnSample aConnSample true false
    sConnSample).2.2.1 rfl
  have h3 := (C6_connect_idempotent aConnSample aConnSample true false
    sConnSample).2.2.2
  exact ⟨h1, h2, h3⟩

/-- C7, counterexample: at the accepted config with min_connections = 5
and max_connections = 2 the engine-based connect builds a pool of size 5
with overflow 0, so pool size plus overflow is 5 and exceeds
max_connections = 2. -/
theorem C7_counterexample :
    ((SqlAlchemyDatabase.mk badConfig none).connect.engine.map
      (fun e => e.pool_size + e.max_overflow)) = some 5
    ∧ badConfig.max_connections = 2
    ∧ ¬ ((5 : Int) ≤ 2) := ⟨rfl, rfl, by decide⟩

/-- C7, amended: connect on a disconnected engine-based backend always
builds the engine with pool size min_connections and overflow max 0
(max_connections - min_connections); for every config satisfying
min_connections ≤ max_connections this bounds pool size plus overflow by
max_connections, while the accepted configs with min_connections >
max_connections yield a total of min_connections that exceeds the
bound. -/
theorem C7_pool_sizing (d : SqlAlchemyDatabase) (hnone : d.engine = none) :
    d.connect.engine = some ⟨d.config.async_connection_url, false,
      d.config.min_connections,
      max 0 (d.config.max_connections - d.config.min_connections)⟩
    ∧ (d.config.min_connections ≤ d.config.max_connections →
      ∀ e, d.connect.engine = some e →
        e.pool_size + e.max_overflow ≤ d.config.max_connections) := by
  have h1 : d.connect.engine = some ⟨d.config.async_connection_url, false,
      d.config.min_connections,
      max 0 (d.config.max_connections - d.config.min_connections)⟩ := by
    simp [SqlAlchemyDatabase.connect, hnone]
  refine ⟨h1, ?_⟩
  intro hle e he
  rw [h1] at he
  injection he with he1
  subst he1
  have h2 : (0 : Int) ≤ d.config.max_connections - d.config.min_connections := by
    omega
  simp only [max_eq_right h2]
  omega

/-- C7, witness: the sizing theorem at the sample config, whose bounds
satisfy min ≤ max, giving pool size plus overflow within
max_connections. -/
theorem C7_witness :
    sEngineSample.pool_size + sEngineSample.max_overflow
      ≤ sampleConfig.max_connections := by
  have h := C7_pool_sizing (SqlAlchemyDatabase.mk sampleConfig none) rfl
  exact h.2 (by decide) sEngineSample h.1

/-- C8: on connected backends fetchrow returns the first row of the
result as a name-to-value mapping when the result is non-empty and the
explicit no-result value when it is empty; a result of zero rows never
raises an error, on either backend. -/
theorem C8_fetchrow_first_or_none (a : AsyncpgDatabase)
    (s : SqlAlchemyDatabase) (rows : List Row)
    (ha : a.is_connected = true) (hs : s.is_connected = true) :
    a.fetchrow rows = .ok (rows.head?.map pyDict)
    ∧ s.fetchrow rows = .ok (rows.head?.map rowAsdict)
    ∧ (rows = [] →
      a.fetchrow rows = .ok none ∧ s.fetchrow rows = .ok none)
    ∧ (∀ r rest, rows = r :: rest →
      a.fetchrow rows = .ok (some r) ∧ s.fetchrow rows = .ok (some r)) := by
  cases hp : a.pool with
  | none => simp [AsyncpgDatabase.is_connected, hp] at ha
  | some p =>
    cases he : s.engine with
    | none => simp [SqlAlchemyDatabase.is_connected, he] at hs
    | some e =>
      refine ⟨?_, ?_, ?_, ?_⟩
      · simp [AsyncpgDatabase.fetchrow, hp]
      · simp [SqlAlchemyDatabase.fetchrow, he]
      · intro hrows
        subst hrows
        exact ⟨by simp [AsyncpgDatabase.fetchrow, hp],
          by simp [SqlAlchemyDatabase.fetchrow, he]⟩
      · intro r rest hrows
        subst hrows
        exact ⟨by simp [AsyncpgDatabase.fetchrow, hp, pyDict],
          by simp [SqlAlchemyDatabase.fetchrow, he, rowAsdict]⟩

/-- C8, witness: fetchrow at the connected sample backends, on a
one-row result and on an empty result. -/
theorem C8_witness :
    aConnSample.fetchrow [[("id", 1)]] = .ok (some [("id", 1)])
    ∧ sConnSample.fetchrow [[("id", 1)]] = .ok (some [("id", 1)])
    ∧ aConnSample.fetchrow [] = .ok none
    ∧ sConnSample.fetchrow [] = .ok none := by
  have h1 := (C8_fetchrow_first_or_none aConnSample sConnSample
    [[("id", 1)]] rfl rfl).2.2.2 [("id", 1)] [] rfl
  have h2 := (C8_fetchrow_first_or_none aConnSample sConnSample
    [] rfl rfl).2.2.1 rfl
  exact ⟨h1.1, h1.2, h2.1, h2.2⟩

/-- C9, counterexample: the Selector holds state beyond the backend
reference: two Db values with the same backend reference but different
stored configs are different instances, so a Db is not determined by
the backend it wraps. -/
theorem C9_counterexample :
    (Db.mk sampleConfig true (some (.sqlalchemyDb sConnSample))).db_instance
      = (Db.mk altConfig true (some (.sqlalchemyDb sConnSample))).db_instance
    ∧ Db.mk sampleConfig true (some (.sqlalchemyDb sConnSample))
      ≠ Db.mk altConfig true (some (.sqlalchemyDb sConnSample)) :=
  ⟨rfl, by decide⟩

/-- C9, amended: every Contract operation invoked on the Selector is
forwarded verbatim to the underlying backend - same arguments, same
result, same errors - and an operation attempted before async
construction completed fails with the not-initialized RuntimeError; the
Selector is therefore observationally equal to the backend it wraps,
though it stores the config and the backend flag in addition to the
backend reference (set at construction and never consulted by the
forwarding). -/
theorem C9_forwarding (db : Db) (b : BackendInstance) (rows : List Row)
    (s : Stmt) (stmts body : List Stmt) (data : DbData) :
    (db.db_instance = some b →
      db.fetch rows = b.fetch rows
      ∧ db.fetchrow rows = b.fetchrow rows
      ∧ db.executeEff s data = b.executeEff s data
      ∧ db.executemany stmts data = b.executemany stmts data
      ∧ db.transactionScope body data = b.transactionScope body data
      ∧ db.is_connected = .ok b.is_connected)
    ∧ (db.db_instance = none →
      db.fetch rows = .error (.runtimeError dbNotInitializedMsg)
      ∧ db.fetchrow rows = .error (.runtimeError dbNotInitializedMsg)
      ∧ db.executeEff s data = (data, some (.runtimeError dbNotInitializedMsg))
      ∧ db.executemany stmts data
          = (data, some (.runtimeError dbNotInitializedMsg))
      ∧ db.transactionScope body data
          = (data, some (.runtimeError dbNotInitializedMsg))
      ∧ db.is_connected = .error (.runtimeError dbNotInitializedMsg)) := by
  constructor
  · intro h
    refine ⟨?_, ?_, ?_, ?_, ?_, ?_⟩ <;>
      simp [Db.fetch, Db.fetchrow, Db.executeEff, Db.executemany,
        Db.transactionScope, Db.is_connected, Db.database, h]
  · intro h
    refine ⟨?_, ?_, ?_, ?_, ?_, ?_⟩ <;>
      simp [Db.fetch, Db.fetchrow, Db.executeEff, Db.executemany,
        Db.transactionScope, Db.is_connected, Db.database, h]

/-- C9, witness: forwarding at an initialized Selector wrapping the
connected sample backend, and the not-initialized error at a Selector
whose async construction has not completed. -/
theorem C9_witness :
    (Db.mk sampleConfig true (some (.sqlalchemyDb sConnSample))).fetch
        [[("id", 1)]]
      = (BackendInstance.sqlalchemyDb sConnSample).fetch [[("id", 1)]]
    ∧ (Db.mk sampleConfig true (some (.sqlalchemyDb sConnSample))).is_connected
      = .ok true
    ∧ (Db.mk sampleConfig true none).fetch [[("id", 1)]]
      = .error (.runtimeError dbNotInitializedMsg) := by
  have h1 := (C9_forwarding
    (Db.mk sampleConfig true (some (.sqlalchemyDb sConnSample)))
    (.sqlalchemyDb sConnSample) [[("id", 1)]] stmtOkA [] [] []).1 rfl
  have h2 := (C9_forwarding (Db.mk sampleConfig true none)
    (.sqlalchemyDb sConnSample) [[("id", 1)]] stmtOkA [] [] []).2 rfl
  exact ⟨h1.1, h1.2.2.2.2.2, h2.1⟩

/-- C10: the synchronous Db call returns the unrun coroutine produced by
the async factory _create, not an initialized instance; awaiting that
coroutine, whenever it succeeds, yields a Db storing the given config and
flag whose backend reference is set to a constructed backend that is
already connected. -/
theorem C10_new_coroutine (hasSA hs : Bool) (cfg : DbConnectionConfig)
    (flag : Bool) (db : Db) :
    (Db.new hasSA hs cfg flag).run = Db.createDb hasSA hs cfg flag
    ∧ ((Db.new hasSA hs cfg flag).awaited = .ok db →
      db.db_config = cfg ∧ db.use_sql_alchemy = flag
      ∧ ∃ b, db.db_instance = some b ∧ b.is_connected = true) := by
  refine ⟨rfl, ?_⟩
  intro h
  have h1 : Db.createDb hasSA hs cfg flag = .ok db := h
  cases hflag : flag with
  | true =>
    cases hsa : hasSA with
    | false => simp [Db.createDb, hflag, hsa] at h1
    | true =>
      simp only [Db.createDb, hflag, hsa, Bool.not_true, Bool.false_eq_true,
        if_false, if_true, SqlAlchemyDatabase.create,
        SqlAlchemyDatabase.mkInstance, SqlAlchemyDatabase.connect,
        Except.ok.injEq] at h1
      subst h1
      exact ⟨rfl, rfl, ⟨_, rfl, rfl⟩⟩
  | false =>
    cases hhs : hs with
    | false =>
      simp [Db.createDb, hflag, hhs, AsyncpgDatabase.create,
        AsyncpgDatabase.mkInstance, AsyncpgDatabase.connect] at h1
    | true =>
      simp only [Db.createDb, hflag, hhs, AsyncpgDatabase.create,
        AsyncpgDatabase.mkInstance, AsyncpgDatabase.connect, if_true,
        Bool.false_eq_true, if_false, Except.ok.injEq] at h1
      subst h1
      exact ⟨rfl, rfl, ⟨_, rfl, rfl⟩⟩

/-- C10, witness: awaiting the coroutine returned by the synchronous Db
call at the sample config yields the initialized Selector wrapping the
connected SQLAlchemy backend. -/
theorem C10_witness :
    (Db.new true true sampleConfig true).awaited
      = .ok (Db.mk sampleConfig true (some (.sqlalchemyDb sConnSample)))
    ∧ (Db.mk sampleConfig true
        (some (.sqlalchemyDb sConnSample))).db_config = sampleConfig
    ∧ (BackendInstance.sqlalchemyDb sConnSample).is_connected = true := by
  have h := (C10_new_coroutine true true sampleConfig true
    (Db.mk sampleConfig true (some (.sqlalchemyDb sConnSample)))).2 rfl
  rcases h.2.2 with ⟨b, hb, hbc⟩
  have hb1 : BackendInstance.sqlalchemyDb sConnSample = b := by
    injection hb
  exact ⟨rfl, h.1, hb1 ▸ hbc⟩

end AjDb
